import Mathlib

/-!
Shallow embedding of the secure-credential storage abstraction and the
session lifecycle of the skiffy-messenger repository
(src/rust/src/core/storage/* and src/rust/src/core/matrix_client/structs.rs,
plus src/rust/src/api/auth.rs).

Conventions of the embedding:
* Rust `Result<T, E>` becomes `Except E T`; `Option<T>` becomes `Option T`.
* A mutating method on a backend becomes explicit state passing: the method
  returns the new backend state together with an optional error (a failing
  call leaves the state it does not change explicit).
* The trait object `&dyn SecureStorage` becomes a record of operations
  (`Backend`) parametrised by the backend state type.
* External collaborators (the matrix-sdk network client, the platform
  keyring/keychain daemons, identifier validation in the matrix-sdk) are
  inputs: each call outcome is a parameter or an oracle function, so the
  embedded code is quantified over every behaviour of the collaborator.
* The `HashMap<String, String>` of the in-memory backend is embedded
  extensionally as `String → Option String`.
-/

namespace Skiffy

/-- Error taxonomy of the storage layer, from
src/rust/src/core/storage/mod.rs (enum SecureStorageError). -/
inductive SecureStorageError where
  | KeyNotFound (key : String)
  | AccessDenied (key : String)
  | BackendNotAvailable (reason : String)
  | InvalidInput (message : String)
  | Internal (message : String)
deriving DecidableEq, Repr

/-- Persistence status reported by a backend, from
src/rust/src/core/storage/mod.rs (enum SessionStatus). -/
inductive SessionStatus where
  | Persistent
  | NonPersistent
deriving DecidableEq, Repr

-- Canonical storage key namespace, from src/rust/src/core/storage/keys.rs.
namespace AuthKeys

def ACCESS_TOKEN : String := "skiffy__access_token"

def REFRESH_TOKEN : String := "skiffy__refresh_token"

def USER_ID : String := "skiffy__user_id"

def DEVICE_ID : String := "skiffy__device_id"

/-- AuthKeys::all() from src/rust/src/core/storage/keys.rs. -/
def all : List String := [ACCESS_TOKEN, REFRESH_TOKEN, USER_ID, DEVICE_ID]

end AuthKeys

/-- The in-memory backend state: the HashMap of InMemoryStorage
(src/rust/src/core/storage/memory.rs), embedded extensionally. -/
def MemStore : Type := String → Option String

/-- The empty in-memory store (InMemoryStorage::new). -/
def MemStore.empty : MemStore := fun _ => none

namespace InMemoryStorage

/-- InMemoryStorage::set (src/rust/src/core/storage/memory.rs, lines 50-62):
rejects the empty key with InvalidInput, otherwise upserts. Returns the
store after the call together with the error, if any. -/
def set (data : MemStore) (key value : String) :
    MemStore × Option SecureStorageError :=
  if key = "" then
    (data, some (SecureStorageError.InvalidInput "Key cannot be empty"))
  else
    ((fun k => if k = key then some value else data k), none)

/-- InMemoryStorage::get (src/rust/src/core/storage/memory.rs, lines 64-78):
rejects the empty key, otherwise looks the key up; absence is KeyNotFound. -/
def get (data : MemStore) (key : String) :
    Except SecureStorageError String :=
  if key = "" then
    Except.error (SecureStorageError.InvalidInput "Key cannot be empty")
  else
    match data key with
    | some v => Except.ok v
    | none => Except.error (SecureStorageError.KeyNotFound key)

/-- InMemoryStorage::delete (src/rust/src/core/storage/memory.rs, lines
80-92): rejects the empty key, otherwise removes the key; removing an
absent key is not an error. -/
def delete (data : MemStore) (key : String) :
    MemStore × Option SecureStorageError :=
  if key = "" then
    (data, some (SecureStorageError.InvalidInput "Key cannot be empty"))
  else
    ((fun k => if k = key then none else data k), none)

/-- InMemoryStorage::clear (src/rust/src/core/storage/memory.rs, lines
94-101): removes every record, never fails. -/
def clear (_data : MemStore) : MemStore × Option SecureStorageError :=
  (MemStore.empty, none)

/-- InMemoryStorage::is_persistent (src/rust/src/core/storage/memory.rs):
always NonPersistent. -/
def is_persistent : SessionStatus := SessionStatus.NonPersistent

end InMemoryStorage

/-- Errors of the external keyring crate, as matched by the linux and
windows adapters (keyring::Error). The message strings carried by the
platform failures are the Display renderings the source inspects. -/
inductive KeyringError where
  | NoEntry
  | PlatformFailure (msg : String)
  | Ambiguous (msg : String)
  | Other (msg : String)
deriving DecidableEq, Repr

/-- Display rendering of a keyring error, used where the source formats the
error into a message. -/
def KeyringError.toMessage : KeyringError → String
  | .NoEntry => "No matching entry found in secure storage"
  | .PlatformFailure msg => msg
  | .Ambiguous msg => msg
  | .Other msg => msg

/-- Substring test on character lists: true when pat occurs inside s. -/
def charsContain (pat : List Char) : List Char → Bool
  | [] => pat.isEmpty
  | c :: rest => pat.isPrefixOf (c :: rest) || charsContain pat rest

/-- Embedding of str::contains on Display-rendered error messages
(`e.to_string().contains(...)` in the source). -/
def strContains (s pat : String) : Bool := charsContain pat.data s.data

/-- Oracle describing the outcomes of the external keyring daemon calls:
Entry::new, set_password, get_password, delete_password, keyed by the
credential key (and value for set). -/
structure KeyringEnv where
  entryNewErr : String → Option String
  setPw : String → String → Option KeyringError
  getPw : String → Except KeyringError String
  delPw : String → Option KeyringError

/-- Tracked-key insertion (HashSet::insert in track_key). -/
def trackInsert (ks : List String) (k : String) : List String :=
  if k ∈ ks then ks else k :: ks

/-- Tracked-key removal (HashSet::remove in untrack_key). -/
def trackRemove (ks : List String) (k : String) : List String :=
  ks.filter (fun x => x ≠ k)

namespace LinuxStorage

/-- LinuxStorage::map_keyring_error (src/rust/src/core/storage/linux.rs,
lines 152-183). -/
def map_keyring_error (error : KeyringError) (key : String) :
    SecureStorageError :=
  match error with
  | .NoEntry => SecureStorageError.KeyNotFound key
  | .PlatformFailure e =>
      if strContains e "access" || strContains e "denied" ||
          strContains e "cancelled" then
        SecureStorageError.AccessDenied key
      else if strContains e "Secret Service" || strContains e "dbus" then
        SecureStorageError.BackendNotAvailable
          ("Secret Service unavailable: " ++ e)
      else
        SecureStorageError.Internal
          ("Platform error for key " ++ key ++ ": " ++ e)
  | .Ambiguous e =>
      SecureStorageError.Internal
        ("Ambiguous keyring error for key " ++ key ++ ": " ++ e)
  | .Other e =>
      SecureStorageError.Internal
        ("Keyring error for key " ++ key ++ ": " ++ e)

/-- Backend-local state of the desktop secret-service adapter: the service
name and the tracked-key set (src/rust/src/core/storage/linux.rs,
struct LinuxStorage). -/
structure State where
  service_name : String
  keys : List String
deriving DecidableEq, Repr

/-- LinuxStorage::new (src/rust/src/core/storage/linux.rs, lines 45-93),
as a function of the probe outcomes: the result of Entry::new on the
sentinel key and the result of the connectivity probe (get_password).
get_service_name() in the source always returns Ok, so the Internal
branch for a service-name failure is dead code and does not appear as a
reachable outcome here. -/
def new (entryNewErr : Option String)
    (probe : Except KeyringError String) :
    Except SecureStorageError State :=
  match entryNewErr with
  | some e =>
      Except.error (SecureStorageError.BackendNotAvailable
        ("Failed to create test keyring entry: " ++ e))
  | none =>
    match probe with
    | Except.ok _ => Except.ok ⟨"com.skiffy.messenger", []⟩
    | Except.error KeyringError.NoEntry =>
        Except.ok ⟨"com.skiffy.messenger", []⟩
    | Except.error (KeyringError.PlatformFailure e) =>
        if strContains e "Secret Service" || strContains e "dbus" ||
            strContains e "keyring" then
          Except.error (SecureStorageError.BackendNotAvailable
            ("Secret Service not available: " ++ e))
        else
          Except.ok ⟨"com.skiffy.messenger", []⟩
    | Except.error e =>
        Except.error (SecureStorageError.BackendNotAvailable
          ("Secret Service test failed: " ++ e.toMessage))

/-- LinuxStorage::set (src/rust/src/core/storage/linux.rs, lines 210-236):
empty-key guard, then create_entry, then the blocking set_password call;
a successful write is tracked. -/
def set (env : KeyringEnv) (keys : List String) (key value : String) :
    List String × Except SecureStorageError Unit :=
  if key = "" then
    (keys, Except.error (SecureStorageError.InvalidInput "Key cannot be empty"))
  else
    match env.entryNewErr key with
    | some e =>
        (keys, Except.error (SecureStorageError.BackendNotAvailable
          ("Failed to create keyring entry: " ++ e)))
    | none =>
      match env.setPw key value with
      | none => (trackInsert keys key, Except.ok ())
      | some e => (keys, Except.error (map_keyring_error e key))

/-- LinuxStorage::get (src/rust/src/core/storage/linux.rs, lines 238-264). -/
def get (env : KeyringEnv) (key : String) :
    Except SecureStorageError String :=
  if key = "" then
    Except.error (SecureStorageError.InvalidInput "Key cannot be empty")
  else
    match env.entryNewErr key with
    | some e =>
        Except.error (SecureStorageError.BackendNotAvailable
          ("Failed to create keyring entry: " ++ e))
    | none =>
      match env.getPw key with
      | Except.ok v => Except.ok v
      | Except.error e => Except.error (map_keyring_error e key)

/-- LinuxStorage::delete (src/rust/src/core/storage/linux.rs, lines
266-302): a NoEntry result from the platform is success (idempotent
delete) and still reconciles the tracked-key set. -/
def delete (env : KeyringEnv) (keys : List String) (key : String) :
    List String × Except SecureStorageError Unit :=
  if key = "" then
    (keys, Except.error (SecureStorageError.InvalidInput "Key cannot be empty"))
  else
    match env.entryNewErr key with
    | some e =>
        (keys, Except.error (SecureStorageError.BackendNotAvailable
          ("Failed to create keyring entry: " ++ e)))
    | none =>
      match env.delPw key with
      | none => (trackRemove keys key, Except.ok ())
      | some KeyringError.NoEntry => (trackRemove keys key, Except.ok ())
      | some e => (keys, Except.error (map_keyring_error e key))

/-- LinuxStorage::is_persistent. -/
def is_persistent : SessionStatus := SessionStatus.Persistent

end LinuxStorage

/-- Either the secret-service adapter or the in-memory fallback, the two
possible results of the linux arm of the factory. -/
inductive StorageChoice where
  | secretService (st : LinuxStorage.State)
  | memoryFallback

/-- create_platform_storage for linux
(src/rust/src/core/storage/factory.rs, lines 71-92), as a function of the
LinuxStorage::new construction result: on Ok the secret-service adapter is
returned, on any Err the factory logs a warning and returns the in-memory
fallback. -/
def create_platform_storage
    (ctor : Except SecureStorageError LinuxStorage.State) :
    Except SecureStorageError StorageChoice :=
  match ctor with
  | Except.ok st => Except.ok (StorageChoice.secretService st)
  | Except.error _ => Except.ok StorageChoice.memoryFallback

namespace WindowsStorage

/-- WindowsStorage::map_keyring_error (src/rust/src/core/storage/windows.rs):
like the linux mapping but without the cancelled and dbus branches. -/
def map_keyring_error (error : KeyringError) (key : String) :
    SecureStorageError :=
  match error with
  | .NoEntry => SecureStorageError.KeyNotFound key
  | .PlatformFailure e =>
      if strContains e "access" || strContains e "denied" then
        SecureStorageError.AccessDenied key
      else
        SecureStorageError.Internal
          ("Platform error for key " ++ key ++ ": " ++ e)
  | .Ambiguous e =>
      SecureStorageError.Internal
        ("Ambiguous keyring error for key " ++ key ++ ": " ++ e)
  | .Other e =>
      SecureStorageError.Internal
        ("Keyring error for key " ++ key ++ ": " ++ e)

/-- WindowsStorage::set (src/rust/src/core/storage/windows.rs): empty-key
guard, then the blocking set_password call (create_entry panics rather
than erroring on this platform, so it has no failure outcome here). -/
def set (env : KeyringEnv) (keys : List String) (key value : String) :
    List String × Except SecureStorageError Unit :=
  if key = "" then
    (keys, Except.error (SecureStorageError.InvalidInput "Key cannot be empty"))
  else
    match env.setPw key value with
    | none => (trackInsert keys key, Except.ok ())
    | some e => (keys, Except.error (map_keyring_error e key))

/-- WindowsStorage::get (src/rust/src/core/storage/windows.rs). -/
def get (env : KeyringEnv) (key : String) :
    Except SecureStorageError String :=
  if key = "" then
    Except.error (SecureStorageError.InvalidInput "Key cannot be empty")
  else
    match env.getPw key with
    | Except.ok v => Except.ok v
    | Except.error e => Except.error (map_keyring_error e key)

/-- WindowsStorage::delete (src/rust/src/core/storage/windows.rs): NoEntry
from the platform is success and reconciles the tracked-key set. -/
def delete (env : KeyringEnv) (keys : List String) (key : String) :
    List String × Except SecureStorageError Unit :=
  if key = "" then
    (keys, Except.error (SecureStorageError.InvalidInput "Key cannot be empty"))
  else
    match env.delPw key with
    | none => (trackRemove keys key, Except.ok ())
    | some KeyringError.NoEntry => (trackRemove keys key, Except.ok ())
    | some e => (keys, Except.error (map_keyring_error e key))

end WindowsStorage

/-- Oracle for the macOS/iOS Security-framework calls. get_password returns
raw bytes; they are abstracted here to their UTF-8 decoding: ok (some s)
for bytes decoding to s, ok none for bytes that are not valid UTF-8. The
Int is the OSStatus error code the source matches on. -/
structure KeychainEnv where
  setPw : String → String → Option Int
  getPw : String → Except Int (Option String)
  delPw : String → Option Int

namespace KeychainStorage

/-- KeychainStorage::map_keychain_error
(src/rust/src/core/storage/keychain.rs): -25300 is errSecItemNotFound,
-25293 is errSecAuthFailed, -128 is userCanceledErr. -/
def map_keychain_error (code : Int) (key : String) : SecureStorageError :=
  if code = -25300 then SecureStorageError.KeyNotFound key
  else if code = -25293 || code = -128 then SecureStorageError.AccessDenied key
  else
    SecureStorageError.Internal
      ("Keychain error for key " ++ key ++ " code " ++ toString code)

/-- KeychainStorage::set (src/rust/src/core/storage/keychain.rs): empty-key
guard, then the blocking set_generic_password call. -/
def set (env : KeychainEnv) (key value : String) :
    Except SecureStorageError Unit :=
  if key = "" then
    Except.error (SecureStorageError.InvalidInput "Key cannot be empty")
  else
    match env.setPw key value with
    | none => Except.ok ()
    | some code => Except.error (map_keychain_error code key)

/-- KeychainStorage::get (src/rust/src/core/storage/keychain.rs): empty-key
guard, the blocking get_generic_password call, then UTF-8 validation of
the returned bytes (invalid UTF-8 is an Internal error). -/
def get (env : KeychainEnv) (key : String) :
    Except SecureStorageError String :=
  if key = "" then
    Except.error (SecureStorageError.InvalidInput "Key cannot be empty")
  else
    match env.getPw key with
    | Except.error code => Except.error (map_keychain_error code key)
    | Except.ok none =>
        Except.error (SecureStorageError.Internal
          ("Invalid UTF-8 in stored value for key " ++ key))
    | Except.ok (some v) => Except.ok v

/-- KeychainStorage::delete (src/rust/src/core/storage/keychain.rs):
errSecItemNotFound (-25300) from the platform is success. -/
def delete (env : KeychainEnv) (key : String) :
    Except SecureStorageError Unit :=
  if key = "" then
    Except.error (SecureStorageError.InvalidInput "Key cannot be empty")
  else
    match env.delPw key with
    | none => Except.ok ()
    | some code =>
        if code = -25300 then Except.ok ()
        else Except.error (map_keychain_error code key)

end KeychainStorage

/-- The SecureStorage trait (src/rust/src/core/storage/mod.rs), embedded as
a record of operations over a backend state type. A mutating operation
returns the state after the call and the error, if any; get does not
mutate. -/
structure Backend (σ : Type) where
  set : σ → String → String → σ × Option SecureStorageError
  get : σ → String → Except SecureStorageError String
  delete : σ → String → σ × Option SecureStorageError

/-- The in-memory backend packaged as a SecureStorage instance
(impl SecureStorage for InMemoryStorage). -/
def memBackend : Backend MemStore where
  set := InMemoryStorage.set
  get := InMemoryStorage.get
  delete := InMemoryStorage.delete

/-- A SecureStorage implementation that fails set for the keys selected by
bad and otherwise behaves like b. The source anticipates such an
implementation: its own test file notes a mock storage that fails on set
operations (src/rust/src/core/matrix_client/unit_tests.rs,
test_login_storage_failure_handling). -/
def flakySet {σ : Type} (b : Backend σ) (bad : String → Bool) : Backend σ where
  set := fun s k v =>
    if bad k then (s, some (SecureStorageError.Internal "simulated set failure"))
    else b.set s k v
  get := b.get
  delete := b.delete

/-- A SecureStorage implementation whose get fails with an Internal error
for the keys selected by bad and otherwise behaves like b. -/
def flakyGet {σ : Type} (b : Backend σ) (bad : String → Bool) : Backend σ where
  set := b.set
  get := fun s k =>
    if bad k then Except.error (SecureStorageError.Internal "simulated storage failure")
    else b.get s k
  delete := b.delete

/-- In-memory session state of MatrixClient
(src/rust/src/core/matrix_client/structs.rs, struct MatrixClient); the
network client handle is an external collaborator and is not part of the
embedded state. The user and device identifiers are kept as strings. -/
structure MatrixClient where
  user_id : Option String
  device_id : Option String
deriving DecidableEq, Repr

/-- A freshly constructed client (MatrixClient::new): no identifiers. -/
def MatrixClient.fresh : MatrixClient := { user_id := none, device_id := none }

/-- The body of a successful login_username response from the remote
protocol collaborator (matrix-sdk login response). -/
structure LoginResponse where
  access_token : String
  refresh_token : Option String
  user_id : String
  device_id : String
deriving DecidableEq, Repr

/-- Error result of MatrixClient::login: either the remote authentication
failed, or a storage write failed (ctx is the anyhow context string). -/
inductive LoginError where
  | auth (msg : String)
  | storage (ctx : String) (e : SecureStorageError)
deriving DecidableEq, Repr

/-- Error result of MatrixClient::restore_session for its hard-error paths
(ctx is the anyhow context string). -/
inductive RestoreError where
  | storage (ctx : String) (e : SecureStorageError)
  | invalidUserId
  | invalidDeviceId
  | sdkRestore (msg : String)
deriving DecidableEq, Repr

/-- Result record of a login execution: client state after the call, the
backend state after the call, the ghost trace of (key, value) pairs passed
to storage.set in order, and the returned value. -/
structure LoginOutcome (σ : Type) where
  client : MatrixClient
  store : σ
  setTrace : List (String × String)
  result : Except LoginError Unit

/-- The tail of MatrixClient::login after the optional refresh-token write
(src/rust/src/core/matrix_client/structs.rs, lines 62-70): store the user
id, then the device id. -/
def MatrixClient.loginTail {σ : Type} (b : Backend σ) (c : MatrixClient)
    (s : σ) (tr : List (String × String)) (r : LoginResponse) :
    LoginOutcome σ :=
  let su := b.set s AuthKeys.USER_ID r.user_id
  let tru := tr ++ [(AuthKeys.USER_ID, r.user_id)]
  match su.2 with
  | some e =>
      ⟨c, su.1, tru,
        Except.error (LoginError.storage
          "Failed to store user ID in secure storage" e)⟩
  | none =>
    let sd := b.set su.1 AuthKeys.DEVICE_ID r.device_id
    let trd := tru ++ [(AuthKeys.DEVICE_ID, r.device_id)]
    match sd.2 with
    | some e =>
        ⟨c, sd.1, trd,
          Except.error (LoginError.storage
            "Failed to store device ID in secure storage" e)⟩
    | none => ⟨c, sd.1, trd, Except.ok ()⟩

/-- MatrixClient::login (src/rust/src/core/matrix_client/structs.rs, lines
39-71), as a function of the remote protocol outcome. On remote success
the in-memory identifiers are assigned first (lines 48-49), then the
writes happen in source order: access token, refresh token if present,
user id, device id; the first failing write aborts with its context. -/
def MatrixClient.login {σ : Type} (b : Backend σ) (c : MatrixClient) (s : σ)
    (remote : Except String LoginResponse) : LoginOutcome σ :=
  match remote with
  | Except.error msg => ⟨c, s, [], Except.error (LoginError.auth msg)⟩
  | Except.ok r =>
    let c1 : MatrixClient :=
      { user_id := some r.user_id, device_id := some r.device_id }
    let sa := b.set s AuthKeys.ACCESS_TOKEN r.access_token
    let tra := [(AuthKeys.ACCESS_TOKEN, r.access_token)]
    match sa.2 with
    | some e =>
        ⟨c1, sa.1, tra,
          Except.error (LoginError.storage
            "Failed to store access token in secure storage" e)⟩
    | none =>
      match r.refresh_token with
      | some rt =>
        let sr := b.set sa.1 AuthKeys.REFRESH_TOKEN rt
        let trr := tra ++ [(AuthKeys.REFRESH_TOKEN, rt)]
        match sr.2 with
        | some e =>
            ⟨c1, sr.1, trr,
              Except.error (LoginError.storage
                "Failed to store refresh token in secure storage" e)⟩
        | none => MatrixClient.loginTail b c1 sr.1 trr r
      | none => MatrixClient.loginTail b c1 sa.1 tra r

/-- MatrixClient::is_logged_in
(src/rust/src/core/matrix_client/structs.rs, lines 171-173). -/
def MatrixClient.is_logged_in (c : MatrixClient) : Bool := c.user_id.isSome

/-- MatrixClient::restore_session
(src/rust/src/core/matrix_client/structs.rs, lines 73-117), as a function
of the storage backend, the matrix-sdk identifier validators (none for a
string that fails structural validation) and the outcome of the sdk
restore_session call. Any error on the access-token read returns
Ok false, the no-session outcome (line 77); errors on the user-id or
device-id reads are hard errors; the refresh token is read
optimistically. -/
def MatrixClient.restore_session {σ : Type} (b : Backend σ)
    (c : MatrixClient) (s : σ)
    (validUser : String → Option String)
    (validDevice : String → Option String)
    (sdkRestore : Except String Unit) :
    MatrixClient × Except RestoreError Bool :=
  match b.get s AuthKeys.ACCESS_TOKEN with
  | Except.error _ => (c, Except.ok false)
  | Except.ok _tok =>
    match b.get s AuthKeys.USER_ID with
    | Except.error e =>
        (c, Except.error (RestoreError.storage
          "Failed to load user ID from secure storage" e))
    | Except.ok uidStr =>
      match b.get s AuthKeys.DEVICE_ID with
      | Except.error e =>
          (c, Except.error (RestoreError.storage
            "Failed to load device ID from secure storage" e))
      | Except.ok didStr =>
        match validUser uidStr with
        | none => (c, Except.error RestoreError.invalidUserId)
        | some uid =>
          match validDevice didStr with
          | none => (c, Except.error RestoreError.invalidDeviceId)
          | some did =>
            match sdkRestore with
            | Except.error msg => (c, Except.error (RestoreError.sdkRestore msg))
            | Except.ok _ =>
                ({ user_id := some uid, device_id := some did },
                  Except.ok true)

/-- The per-key best-effort delete loop of MatrixClient::logout
(for key in AuthKeys::all(), src/rust/src/core/matrix_client/structs.rs,
lines 162-166): every key is passed to storage.delete in order, failures
only produce a warning. Returns the final backend state and the ghost
trace of keys passed to delete. -/
def deleteAllKeys {σ : Type} (b : Backend σ) : σ → List String → σ × List String
  | s, [] => (s, [])
  | s, k :: ks =>
    let s1 := (b.delete s k).1
    let rest := deleteAllKeys b s1 ks
    (rest.1, k :: rest.2)

/-- Result record of a logout execution: client state, backend state, the
ghost trace of keys passed to storage.delete, and the returned value. -/
structure LogoutOutcome (σ : Type) where
  client : MatrixClient
  store : σ
  deleteTrace : List String
  result : Except LoginError Unit

/-- MatrixClient::logout (src/rust/src/core/matrix_client/structs.rs, lines
148-169): the remote logout is attempted only when logged in and its
outcome is ignored apart from a warning; the in-memory identifiers are
cleared unconditionally; every key of AuthKeys::all() is deleted
best-effort; the function returns Ok regardless of every sub-step. -/
def MatrixClient.logout {σ : Type} (b : Backend σ) (_c : MatrixClient) (s : σ)
    (_remoteLogout : Except String Unit) : LogoutOutcome σ :=
  let d := deleteAllKeys b s AuthKeys.all
  ⟨{ user_id := none, device_id := none }, d.1, d.2, Except.ok ()⟩

/-- has_stored_session (src/rust/src/api/auth.rs, lines 209-221): probes
the access-token record; KeyNotFound maps to Ok false, any other storage
error propagates. -/
def has_stored_session {σ : Type} (b : Backend σ) (s : σ) :
    Except SecureStorageError Bool :=
  match b.get s AuthKeys.ACCESS_TOKEN with
  | Except.ok _ => Except.ok true
  | Except.error (SecureStorageError.KeyNotFound _) => Except.ok false
  | Except.error e => Except.error e

end Skiffy

namespace Skiffy

/-- The login response of the spec's login test scenario, without a refresh
token. -/
def respNoRefresh : LoginResponse :=
  { access_token := "abc123", refresh_token := none,
    user_id := "@u:host", device_id := "DEV1" }

/-- A login response carrying a refresh token. -/
def respWithRefresh : LoginResponse :=
  { access_token := "abc123", refresh_token := some "rt99",
    user_id := "@u:host", device_id := "DEV1" }

/-- The delete loop passes exactly the input key list to storage.delete, in
order, whatever each delete returns. -/
theorem deleteAllKeys_trace {σ : Type} (b : Backend σ) (ks : List String) :
    ∀ s : σ, (deleteAllKeys b s ks).2 = ks := by
  induction ks with
  | nil => intro s; rfl
  | cons k ks ih =>
      intro s
      simp only [deleteAllKeys, ih]

/-- C6: for every starting client state and every combination of outcomes
of the remote logout call and of the per-key deletes (encoded by an
arbitrary backend), logout leaves the client in the logged-out state with
user_id and device_id cleared and passes every one of the four session
credential keys to storage.delete. -/
theorem C6_logout_always_logged_out_and_deletes_all {σ : Type}
    (b : Backend σ) (c : MatrixClient) (s : σ)
    (remote : Except String Unit) :
    (MatrixClient.logout b c s remote).client =
        { user_id := none, device_id := none } ∧
      (MatrixClient.logout b c s remote).client.is_logged_in = false ∧
      (MatrixClient.logout b c s remote).deleteTrace = AuthKeys.all := by
  refine ⟨rfl, rfl, ?_⟩
  simp only [MatrixClient.logout, deleteAllKeys_trace]

/-- C9: logout never returns an error: for every starting state and every
outcome of the remote logout call and of each per-key delete, logout
returns Ok. -/
theorem C9_logout_never_errors {σ : Type} (b : Backend σ) (c : MatrixClient)
    (s : σ) (remote : Except String Unit) :
    (MatrixClient.logout b c s remote).result = Except.ok () := rfl

/-- C7: on the in-memory backend, for non-empty key and value, set
succeeds and a following get returns exactly the value written. -/
theorem C7_mem_set_get_roundtrip (data : MemStore) (key value : String)
    (hk : key ≠ "") (_hv : value ≠ "") :
    (InMemoryStorage.set data key value).2 = none ∧
      InMemoryStorage.get (InMemoryStorage.set data key value).1 key =
        Except.ok value := by
  unfold InMemoryStorage.set InMemoryStorage.get
  simp [hk]

/-- C7 witness: the round-trip evaluated at a concrete key and value. -/
theorem C7_mem_set_get_roundtrip_witness :
    (InMemoryStorage.set MemStore.empty "k" "v").2 = none ∧
      InMemoryStorage.get (InMemoryStorage.set MemStore.empty "k" "v").1 "k" =
        Except.ok "v" :=
  C7_mem_set_get_roundtrip MemStore.empty "k" "v" (by decide) (by decide)

/-- C8: every backend rejects the empty key on set, get and delete with
InvalidInput. The statement is quantified over every platform oracle and
returns the backend state unchanged, so the platform API is never
consulted and the store is untouched. -/
theorem C8_empty_key_invalid_input (data : MemStore) (env : KeyringEnv)
    (envK : KeychainEnv) (ks : List String) (v : String) :
    InMemoryStorage.set data "" v =
        (data, some (SecureStorageError.InvalidInput "Key cannot be empty")) ∧
      InMemoryStorage.get data "" =
        Except.error (SecureStorageError.InvalidInput "Key cannot be empty") ∧
      InMemoryStorage.delete data "" =
        (data, some (SecureStorageError.InvalidInput "Key cannot be empty")) ∧
      LinuxStorage.set env ks "" v =
        (ks, Except.error (SecureStorageError.InvalidInput "Key cannot be empty")) ∧
      LinuxStorage.get env "" =
        Except.error (SecureStorageError.InvalidInput "Key cannot be empty") ∧
      LinuxStorage.delete env ks "" =
        (ks, Except.error (SecureStorageError.InvalidInput "Key cannot be empty")) ∧
      WindowsStorage.set env ks "" v =
        (ks, Except.error (SecureStorageError.InvalidInput "Key cannot be empty")) ∧
      WindowsStorage.get env "" =
        Except.error (SecureStorageError.InvalidInput "Key cannot be empty") ∧
      WindowsStorage.delete env ks "" =
        (ks, Except.error (SecureStorageError.InvalidInput "Key cannot be empty")) ∧
      KeychainStorage.set envK "" v =
        Except.error (SecureStorageError.InvalidInput "Key cannot be empty") ∧
      KeychainStorage.get envK "" =
        Except.error (SecureStorageError.InvalidInput "Key cannot be empty") ∧
      KeychainStorage.delete envK "" =
        Except.error (SecureStorageError.InvalidInput "Key cannot be empty") :=
  ⟨rfl, rfl, rfl, rfl, rfl, rfl, rfl, rfl, rfl, rfl, rfl, rfl⟩

/-- C10: on the in-memory backend, set and delete are per-key local: for
distinct non-empty keys, get on the other key is unchanged by the
operation. -/
theorem C10_mem_set_delete_frame (data : MemStore) (k k2 v : String)
    (hk : k ≠ "") (hk2 : k2 ≠ "") (hne : k ≠ k2) :
    InMemoryStorage.get (InMemoryStorage.set data k v).1 k2 =
        InMemoryStorage.get data k2 ∧
      InMemoryStorage.get (InMemoryStorage.delete data k).1 k2 =
        InMemoryStorage.get data k2 := by
  unfold InMemoryStorage.set InMemoryStorage.get InMemoryStorage.delete
  simp [hk, hk2, Ne.symm hne]

/-- C1 counterexample: a remote login that succeeds followed by a failing
user-id write leaves the already-written access token behind, so login
returns an error while hasStoredSession reports true. -/
theorem C1_counterexample :
    (MatrixClient.login (flakySet memBackend (fun k => k == AuthKeys.USER_ID))
          MatrixClient.fresh MemStore.empty (Except.ok respNoRefresh)).result =
        Except.error (LoginError.storage
          "Failed to store user ID in secure storage"
          (SecureStorageError.Internal "simulated set failure")) ∧
      has_stored_session (flakySet memBackend (fun k => k == AuthKeys.USER_ID))
          (MatrixClient.login (flakySet memBackend (fun k => k == AuthKeys.USER_ID))
            MatrixClient.fresh MemStore.empty (Except.ok respNoRefresh)).store =
        Except.ok true :=
  ⟨rfl, rfl⟩

/-- C1 amended: when the remote protocol login fails, no storage write is
attempted and the store is unchanged, so no partial credentials appear;
but when the remote login succeeds and a write after the access-token
write fails, login performs no rollback: the access-token record remains
stored and hasStoredSession returns true despite the login error. -/
theorem C1_amended_no_rollback :
    (∀ (σ : Type) (b : Backend σ) (c : MatrixClient) (s : σ) (msg : String),
        (MatrixClient.login b c s (Except.error msg)).store = s ∧
          (MatrixClient.login b c s (Except.error msg)).setTrace = []) ∧
      ((MatrixClient.login (flakySet memBackend (fun k => k == AuthKeys.USER_ID))
            MatrixClient.fresh MemStore.empty (Except.ok respNoRefresh)).store
          AuthKeys.ACCESS_TOKEN = some "abc123" ∧
        (MatrixClient.login (flakySet memBackend (fun k => k == AuthKeys.USER_ID))
            MatrixClient.fresh MemStore.empty (Except.ok respNoRefresh)).result ≠
          Except.ok ()) :=
  ⟨fun _ _ _ _ _ => ⟨rfl, rfl⟩, rfl, fun h => Except.noConfusion h⟩

/-- C2 counterexample: login assigns the in-memory identifiers before the
storage writes, so a failing access-token write returns an error while
is_logged_in already reports true. -/
theorem C2_counterexample :
    (MatrixClient.login (flakySet memBackend (fun k => k == AuthKeys.ACCESS_TOKEN))
          MatrixClient.fresh MemStore.empty (Except.ok respNoRefresh)).result =
        Except.error (LoginError.storage
          "Failed to store access token in secure storage"
          (SecureStorageError.Internal "simulated set failure")) ∧
      (MatrixClient.login (flakySet memBackend (fun k => k == AuthKeys.ACCESS_TOKEN))
          MatrixClient.fresh MemStore.empty
          (Except.ok respNoRefresh)).client.is_logged_in = true :=
  ⟨rfl, rfl⟩

/-- C2 amended: after a login whose remote protocol step failed the client
state is unchanged, so a fresh client still reports not logged in; but
when the remote step succeeds and a storage write fails, the identifiers
were already assigned and is_logged_in reports true despite the error. -/
theorem C2_amended_logged_in_set_before_writes :
    (∀ (σ : Type) (b : Backend σ) (c : MatrixClient) (s : σ) (msg : String),
        (MatrixClient.login b c s (Except.error msg)).client = c) ∧
      (∀ (σ : Type) (b : Backend σ) (s : σ) (msg : String),
        (MatrixClient.login b MatrixClient.fresh s
            (Except.error msg)).client.is_logged_in = false) ∧
      ((MatrixClient.login (flakySet memBackend (fun k => k == AuthKeys.ACCESS_TOKEN))
            MatrixClient.fresh MemStore.empty (Except.ok respNoRefresh)).result ≠
          Except.ok () ∧
        (MatrixClient.login (flakySet memBackend (fun k => k == AuthKeys.ACCESS_TOKEN))
            MatrixClient.fresh MemStore.empty
            (Except.ok respNoRefresh)).client.is_logged_in = true) :=
  ⟨fun _ _ _ _ _ => rfl, fun _ _ _ _ => rfl,
    fun h => Except.noConfusion h, rfl⟩

/-- C3 counterexample: with a refresh token present, the write order is
access token, refresh token, user id, device id, which differs from the
claimed order access token, user id, device id, refresh token. -/
theorem C3_counterexample :
    (MatrixClient.login memBackend MatrixClient.fresh MemStore.empty
          (Except.ok respWithRefresh)).setTrace.map Prod.fst =
        [AuthKeys.ACCESS_TOKEN, AuthKeys.REFRESH_TOKEN,
          AuthKeys.USER_ID, AuthKeys.DEVICE_ID] ∧
      ([AuthKeys.ACCESS_TOKEN, AuthKeys.REFRESH_TOKEN,
          AuthKeys.USER_ID, AuthKeys.DEVICE_ID] : List String) ≠
        [AuthKeys.ACCESS_TOKEN, AuthKeys.USER_ID,
          AuthKeys.DEVICE_ID, AuthKeys.REFRESH_TOKEN] :=
  ⟨rfl, by decide⟩

/-- C3 amended: on a successful remote login the credential records are
written in the order access token, then refresh token if present, then
user id, then device id; when the response has no refresh token, login
still succeeds and no refresh-token record is written. Stated over the
in-memory backend, on which every write of a non-empty key succeeds. -/
theorem C3_amended_write_order (d : MemStore) (c : MatrixClient)
    (r : LoginResponse) :
    (r.refresh_token = none →
        (MatrixClient.login memBackend c d (Except.ok r)).result =
            Except.ok () ∧
          (MatrixClient.login memBackend c d (Except.ok r)).setTrace.map
              Prod.fst =
            [AuthKeys.ACCESS_TOKEN, AuthKeys.USER_ID, AuthKeys.DEVICE_ID] ∧
          (MatrixClient.login memBackend c d (Except.ok r)).store
              AuthKeys.REFRESH_TOKEN = d AuthKeys.REFRESH_TOKEN) ∧
      (∀ rt, r.refresh_token = some rt →
        (MatrixClient.login memBackend c d (Except.ok r)).result =
            Except.ok () ∧
          (MatrixClient.login memBackend c d (Except.ok r)).setTrace.map
              Prod.fst =
            [AuthKeys.ACCESS_TOKEN, AuthKeys.REFRESH_TOKEN,
              AuthKeys.USER_ID, AuthKeys.DEVICE_ID]) := by
  constructor
  · intro h
    refine ⟨?_, ?_, ?_⟩ <;>
      simp [MatrixClient.login, MatrixClient.loginTail, memBackend,
        InMemoryStorage.set, h, AuthKeys.ACCESS_TOKEN, AuthKeys.REFRESH_TOKEN,
        AuthKeys.USER_ID, AuthKeys.DEVICE_ID]
  · intro rt h
    refine ⟨?_, ?_⟩ <;>
      simp [MatrixClient.login, MatrixClient.loginTail, memBackend,
        InMemoryStorage.set, h, AuthKeys.ACCESS_TOKEN, AuthKeys.REFRESH_TOKEN,
        AuthKeys.USER_ID, AuthKeys.DEVICE_ID]

/-- C3 witness: the amended write-order theorem applied to the concrete
refresh-token-free response. -/
theorem C3_amended_write_order_witness :
    (MatrixClient.login memBackend MatrixClient.fresh MemStore.empty
        (Except.ok respNoRefresh)).result = Except.ok () :=
  ((C3_amended_write_order MemStore.empty MatrixClient.fresh respNoRefresh).1
    rfl).1

/-- C4 counterexample: a get of the access-token record failing with an
Internal error (not KeyNotFound) is swallowed: restore_session returns
the no-session outcome Ok false instead of propagating the error. -/
theorem C4_counterexample :
    (flakyGet memBackend (fun k => k == AuthKeys.ACCESS_TOKEN)).get
          MemStore.empty AuthKeys.ACCESS_TOKEN =
        Except.error (SecureStorageError.Internal "simulated storage failure") ∧
      MatrixClient.restore_session
          (flakyGet memBackend (fun k => k == AuthKeys.ACCESS_TOKEN))
          MatrixClient.fresh MemStore.empty some some (Except.ok ()) =
        (MatrixClient.fresh, Except.ok false) :=
  ⟨rfl, rfl⟩

/-- C4 amended: every storage error returned while reading the access-token
record, KeyNotFound or not, yields the no-session outcome Ok false; a
storage error on the subsequent user-id read, or on the device-id read
after it, is a hard error and propagates with its context. -/
theorem C4_amended_access_token_errors_swallowed {σ : Type} (b : Backend σ)
    (c : MatrixClient) (s : σ) (validUser validDevice : String → Option String)
    (sdkR : Except String Unit) :
    (∀ e, b.get s AuthKeys.ACCESS_TOKEN = Except.error e →
        MatrixClient.restore_session b c s validUser validDevice sdkR =
          (c, Except.ok false)) ∧
      (∀ tok e, b.get s AuthKeys.ACCESS_TOKEN = Except.ok tok →
        b.get s AuthKeys.USER_ID = Except.error e →
        MatrixClient.restore_session b c s validUser validDevice sdkR =
          (c, Except.error (RestoreError.storage
            "Failed to load user ID from secure storage" e))) ∧
      (∀ tok uid e, b.get s AuthKeys.ACCESS_TOKEN = Except.ok tok →
        b.get s AuthKeys.USER_ID = Except.ok uid →
        b.get s AuthKeys.DEVICE_ID = Except.error e →
        MatrixClient.restore_session b c s validUser validDevice sdkR =
          (c, Except.error (RestoreError.storage
            "Failed to load device ID from secure storage" e))) := by
  refine ⟨?_, ?_, ?_⟩
  · intro e h
    simp [MatrixClient.restore_session, h]
  · intro tok e h1 h2
    simp [MatrixClient.restore_session, h1, h2]
  · intro tok uid e h1 h2 h3
    simp [MatrixClient.restore_session, h1, h2, h3]

/-- C4 witness: the amended theorem applied to a backend whose access-token
read fails with an Internal error. -/
theorem C4_amended_access_token_errors_swallowed_witness :
    MatrixClient.restore_session
        (flakyGet memBackend (fun k => k == AuthKeys.ACCESS_TOKEN))
        MatrixClient.fresh MemStore.empty some some (Except.error "offline") =
      (MatrixClient.fresh, Except.ok false) :=
  (C4_amended_access_token_errors_swallowed
      (flakyGet memBackend (fun k => k == AuthKeys.ACCESS_TOKEN))
      MatrixClient.fresh MemStore.empty some some (Except.error "offline")).1
    (SecureStorageError.Internal "simulated storage failure") rfl

/-- C5 counterexample: the linux factory arm replaces every construction
error with the in-memory fallback, including an Internal error, instead
of propagating it. -/
theorem C5_counterexample :
    create_platform_storage
          (Except.error (SecureStorageError.Internal "boom")) =
        Except.ok StorageChoice.memoryFallback ∧
      create_platform_storage
          (Except.error (SecureStorageError.Internal "boom")) ≠
        Except.error (SecureStorageError.Internal "boom") :=
  ⟨rfl, fun h => Except.noConfusion h⟩

/-- C5 amended: the linux factory arm falls back to the in-memory adapter
on every construction failure; on this code path the distinction is
unobservable because every reachable construction error of
LinuxStorage::new is BackendNotAvailable. -/
theorem C5_amended_fallback_on_every_failure (entryNewErr : Option String)
    (probe : Except KeyringError String) :
    (∃ st, LinuxStorage.new entryNewErr probe = Except.ok st ∧
        create_platform_storage (LinuxStorage.new entryNewErr probe) =
          Except.ok (StorageChoice.secretService st)) ∨
      (∃ reason, LinuxStorage.new entryNewErr probe =
          Except.error (SecureStorageError.BackendNotAvailable reason) ∧
        create_platform_storage (LinuxStorage.new entryNewErr probe) =
          Except.ok StorageChoice.memoryFallback) := by
  cases entryNewErr with
  | some e => exact Or.inr ⟨_, rfl, rfl⟩
  | none =>
    cases probe with
    | ok v => exact Or.inl ⟨_, rfl, rfl⟩
    | error ke =>
      cases ke with
      | NoEntry => exact Or.inl ⟨_, rfl, rfl⟩
      | PlatformFailure m =>
          by_cases h : (strContains m "Secret Service" || strContains m "dbus"
              || strContains m "keyring") = true
          · refine Or.inr ⟨"Secret Service not available: " ++ m, ?_, ?_⟩ <;>
              simp [LinuxStorage.new, create_platform_storage, h]
          · refine Or.inl ⟨⟨"com.skiffy.messenger", []⟩, ?_, ?_⟩ <;>
              simp [LinuxStorage.new, create_platform_storage, h]
      | Ambiguous m => exact Or.inr ⟨_, rfl, rfl⟩
      | Other m => exact Or.inr ⟨_, rfl, rfl⟩

/-- C10 witness: the frame property evaluated at two concrete keys. -/
theorem C10_mem_set_delete_frame_witness :
    InMemoryStorage.get
        (InMemoryStorage.set MemStore.empty "a" "v").1 "b" =
      InMemoryStorage.get MemStore.empty "b" ∧
    InMemoryStorage.get
        (InMemoryStorage.delete MemStore.empty "a").1 "b" =
      InMemoryStorage.get MemStore.empty "b" :=
  C10_mem_set_delete_frame MemStore.empty "a" "b" "v"
    (by decide) (by decide) (by decide)

end Skiffy
